import Mathlib

/-!
Verification development for the tab-window reconciliation model of the
`tabli` repository (`src/js/components/WindowHeader.js`, model portion).

The JavaScript source represents tab items and tab windows as Immutable.js
Records.  We embed them as Lean structures; `Record.remove(k)` resets a field
to its declared default, so removals are modelled by writing the default
value back.  JavaScript `throw` (from the `safeSavedState` / `safeOpenState`
accessors and from method calls on `null`) is modelled with `Except String`.
The field `open` of the source records is called `isOpen` here because
`open` is a Lean keyword.
-/

namespace Tabli

/-- Tab state that is persisted as a bookmark (`SavedTabState` record). -/
structure SavedTabState where
  bookmarkId : String := ""
  bookmarkIndex : Int := 0
  title : String := ""
  url : String := ""
deriving Repr, DecidableEq

/-- Tab state associated with an open browser tab (`OpenTabState` record). -/
structure OpenTabState where
  url : String := ""
  openTabId : Int := -1
  active : Bool := false
  openTabIndex : Int := 0
  favIconUrl : String := ""
  title : String := ""
  audible : Bool := false
  pinned : Bool := false
deriving Repr, DecidableEq

/-- An item in a tabbed window; may carry a saved backing, an open backing,
or both (`TabItem` record).  `open` is a Lean keyword, hence `isOpen`. -/
structure TabItem where
  saved : Bool := false
  savedState : Option SavedTabState := none
  isOpen : Bool := false
  openState : Option OpenTabState := none
deriving Repr, DecidableEq

namespace TabItem

/-- Derived getter `TabItem.title`: open state wins when open, else saved. -/
def title (ti : TabItem) : String :=
  match ti.isOpen, ti.openState with
  | true, some os => os.title
  | _, _ =>
    match ti.savedState with
    | some ss => ss.title
    | none => ""

/-- Derived getter `TabItem.url`: open state wins when open, else saved. -/
def url (ti : TabItem) : String :=
  match ti.isOpen, ti.openState with
  | true, some os => os.url
  | _, _ =>
    match ti.savedState with
    | some ss => ss.url
    | none => ""

/-- Derived getter `TabItem.pinned`. -/
def pinned (ti : TabItem) : Bool :=
  match ti.isOpen, ti.openState with
  | true, some os => os.pinned
  | _, _ => false

/-- Safe accessor for `savedState`; throws on an unsaved item. -/
def safeSavedState (ti : TabItem) : Except String SavedTabState :=
  match ti.saved, ti.savedState with
  | true, some ss => .ok ss
  | _, _ => .error "Unexpected access of savedState on unsaved tab"

/-- Safe accessor for `openState`; throws on a non-open item. -/
def safeOpenState (ti : TabItem) : Except String OpenTabState :=
  match ti.isOpen, ti.openState with
  | true, some os => .ok os
  | _, _ => .error "Unexpected access of openState on non-open tab"

end TabItem

/-- `resetSavedItem`: the base saved state of a tab item, with the `open` and
`openState` fields removed (reset to their record defaults). -/
def resetSavedItem (ti : TabItem) : TabItem :=
  { ti with isOpen := false, openState := none }

/-- `resetOpenItem`: the base state of an open tab, with the `saved` and
`savedState` fields removed (reset to their record defaults). -/
def resetOpenItem (ti : TabItem) : TabItem :=
  { ti with saved := false, savedState := none }

/-- `cleanOpenState`: strip `openTabId` from an open item (a Record `remove`
resets the field to its default `-1`).  On an open item whose `openState` is
`null` the source calls `os.remove` on `null` and crashes; that crash is the
`Except.error` case. -/
def cleanOpenState (ti : TabItem) : Except String TabItem :=
  if ti.isOpen then
    match ti.openState with
    | none => .error "TypeError: cannot read remove of null openState"
    | some os => .ok { ti with openState := some { os with openTabId := -1 } }
  else
    .ok ti

/-- Shape of a live Chrome tab snapshot consumed by the model. -/
structure Tab where
  url : String := ""
  id : Int := -1
  index : Int := 0
  active : Bool := false
  pinned : Bool := false
  audible : Bool := false
  favIconUrl : String := ""
  title : String := ""
deriving Repr, DecidableEq

/-- Shape of a Chrome bookmark node consumed by the model. -/
structure BookmarkNode where
  id : String := ""
  index : Int := 0
  url : String := ""
  title : String := ""
deriving Repr, DecidableEq

/-- Shape of a live Chrome window snapshot consumed by the model. -/
structure ChromeWindow where
  id : Int := -1
  type : String := ""
  width : Int := 0
  height : Int := 0
  tabs : List Tab := []
deriving Repr, DecidableEq

/-- `makeSavedTabState`: initialize saved tab state from a bookmark node. -/
def makeSavedTabState (bm : BookmarkNode) : SavedTabState :=
  { url := bm.url, title := bm.title, bookmarkId := bm.id, bookmarkIndex := bm.index }

/-- `makeBookmarkedTabItem`: a closed, saved-only item from a bookmark node. -/
def makeBookmarkedTabItem (bm : BookmarkNode) : TabItem :=
  { saved := true, savedState := some (makeSavedTabState bm) }

/-- `makeOpenTabState`: initialize `OpenTabState` from a live browser tab. -/
def makeOpenTabState (tab : Tab) : OpenTabState :=
  { url := tab.url, audible := tab.audible, favIconUrl := tab.favIconUrl,
    title := tab.title, openTabId := tab.id, active := tab.active,
    openTabIndex := tab.index, pinned := tab.pinned }

/-- `makeOpenTabItem`: an open-only item from a live browser tab. -/
def makeOpenTabItem (tab : Tab) : TabItem :=
  { isOpen := true, openState := some (makeOpenTabState tab) }

/-- Immutable.js `List.splice(index, removeNum, ...values)`: a negative index
is resolved relative to the end of the list and clamped at `0`. -/
def listSplice {α : Type} (l : List α) (index : Int) (removeNum : Nat)
    (values : List α) : List α :=
  let sz : Int := l.length
  let idx : Nat := (if index < 0 then max (sz + index) 0 else min index sz).toNat
  l.take idx ++ values ++ l.drop (idx + removeNum)

/-- Immutable.js `List.insert(index, value)` = `splice(index, 0, value)`. -/
def listInsert {α : Type} (l : List α) (index : Int) (value : α) : List α :=
  listSplice l index 0 [value]

/-- Immutable.js `findEntry`: first `[index, item]` pair satisfying the
predicate, scanning from position `n`. -/
def findEntryAux {α : Type} (p : α → Bool) : List α → Nat → Option (Nat × α)
  | [], _ => none
  | x :: rest, n => if p x then some (n, x) else findEntryAux p rest (n + 1)

/-- Immutable.js `findEntry` with a predicate that may throw. -/
def findEntryExceptAux {α : Type} (p : α → Except String Bool) :
    List α → Nat → Except String (Option (Nat × α))
  | [], _ => .ok none
  | x :: rest, n =>
    match p x with
    | .error e => .error e
    | .ok b => if b then .ok (some (n, x)) else findEntryExceptAux p rest (n + 1)

/-- `map` over a list with a function that may throw; the JS `List.map`
propagates the first exception. -/
def mapExcept {α β : Type} (f : α → Except String β) :
    List α → Except String (List β)
  | [] => .ok []
  | x :: xs =>
    match f x with
    | .error e => .error e
    | .ok y =>
      match mapExcept f xs with
      | .error e => .error e
      | .ok ys => .ok (y :: ys)

/-- A `TabWindow` (four lifecycle states: open/!saved, open/saved,
!open/saved/!snapshot, !open/saved/snapshot). -/
structure TabWindow where
  saved : Bool := false
  savedTitle : String := ""
  savedFolderId : String := ""
  isOpen : Bool := false
  openWindowId : Int := -1
  windowType : String := ""
  width : Int := 0
  height : Int := 0
  tabItems : List TabItem := []
  snapshot : Bool := false
  chromeSessionId : Option String := none
  expanded : Option Bool := none
deriving Repr, DecidableEq

namespace TabWindow

/-- `TabWindow.id` getter: `'_saved' + savedFolderId` when saved, else
`'_open' + openWindowId`.  The `_id` cache lives only on one immutable
record value, so the getter is a pure function of the fields. -/
def id (w : TabWindow) : String :=
  if w.saved then "_saved" ++ w.savedFolderId
  else "_open" ++ toString w.openWindowId

/-- `TabWindow.setTabItems`. -/
def setTabItems (w : TabWindow) (nextItems : List TabItem) : TabWindow :=
  { w with tabItems := nextItems }

/-- `TabWindow.indexOf`: Immutable `List.indexOf`, `-1` when not found. -/
def indexOf (w : TabWindow) (target : TabItem) : Int :=
  match w.tabItems.findIdx? (fun ti => decide (ti = target)) with
  | some i => (i : Int)
  | none => -1

/-- `TabWindow.findChromeTabId`: first `[index, item]` with a matching live
tab id. -/
def findChromeTabId (w : TabWindow) (tabId : Int) : Option (Nat × TabItem) :=
  findEntryAux
    (fun ti => ti.isOpen &&
      (match ti.openState with
       | some os => decide (os.openTabId = tabId)
       | none => false))
    w.tabItems 0

/-- `TabWindow.findChromeBookmarkId`: first `[index, item]` with a matching
bookmark id. -/
def findChromeBookmarkId (w : TabWindow) (bookmarkId : String) :
    Option (Nat × TabItem) :=
  findEntryAux
    (fun ti => ti.saved &&
      (match ti.savedState with
       | some ss => decide (ss.bookmarkId = bookmarkId)
       | none => false))
    w.tabItems 0

end TabWindow

/-- `removeOpenWindowState`: mark a window closed and drop open-window
state.  NOTE (faithful to the source): the final `.set('snapshot', true)` is
unconditional — it runs in the non-snapshot branch as well. -/
def removeOpenWindowState (tabWindow : TabWindow) (snapshot : Bool) :
    Except String TabWindow :=
  match (if !snapshot then
           .ok ((tabWindow.tabItems.filter (fun ti => ti.saved)).map resetSavedItem)
         else
           mapExcept cleanOpenState tabWindow.tabItems : Except String (List TabItem)) with
  | .error e => .error e
  | .ok updTabItems =>
    .ok { tabWindow with
      isOpen := false, openWindowId := -1, windowType := "",
      width := 0, height := 0,
      tabItems := updTabItems, snapshot := true }

/-- `removeSavedWindowState`: drop saved state from a window. -/
def removeSavedWindowState (tabWindow : TabWindow) : TabWindow :=
  { tabWindow with saved := false, savedFolderId := "", savedTitle := "" }

/-- The url key under which `mergeSavedOpenTabs` indexes a saved item
(`ti.safeSavedState.url`, total form used once the safe access succeeded). -/
def savedUrl (ti : TabItem) : String :=
  match ti.savedState with
  | some ss => ss.url
  | none => ""

/-- Building `savedUrlMap`: evaluate `safeSavedState` on every saved item,
left to right, collecting `[url, item]` pairs; the first throw propagates. -/
def savedPairsOf : List TabItem → Except String (List (String × TabItem))
  | [] => .ok []
  | ti :: rest =>
    match ti.safeSavedState with
    | .error e => .error e
    | .ok ss =>
      match savedPairsOf rest with
      | .error e => .error e
      | .ok tl => .ok ((ss.url, ti) :: tl)

/-- `Immutable.Map` lookup built from a pair list: on duplicate keys the
last pair wins. -/
def lastLookup (pairs : List (String × TabItem)) (u : String) : Option TabItem :=
  pairs.foldl (fun acc p => if p.1 = u then some p.2 else acc) none

/-- The per-open-item enrichment step of `mergeSavedOpenTabs`: if the open
item's `openState.url` is in the saved url map, attach that saved entry's
`savedState`. -/
def mergeEnrich (pairs : List (String × TabItem)) (openItem : TabItem) : TabItem :=
  match openItem.openState with
  | some os =>
    match lastLookup pairs os.url with
    | some savedItem =>
      { openItem with saved := true, savedState := savedItem.savedState }
    | none => openItem
  | none => openItem

/-- The closed-tab filter of `mergeSavedOpenTabs`: keep saved items whose
`savedState.url` is not among the derived urls of the open items. -/
def closedPred (openItems : List TabItem) (savedItem : TabItem) : Bool :=
  match savedItem.savedState with
  | some ss => !((openItems.map TabItem.url).contains ss.url)
  | none => false

/-- `mergeSavedOpenTabs`: merge saved and currently open tab states into tab
items by joining on URL. -/
def mergeSavedOpenTabs (savedItems openItems : List TabItem) :
    Except String (List TabItem) :=
  match savedPairsOf savedItems with
  | .error e => .error e
  | .ok savedPairs =>
    .ok (openItems.map (mergeEnrich savedPairs) ++
      savedItems.filter (closedPred openItems))

/-- `mergeOpenTabs`: merge currently open tabs from a Chrome window with the
previous tab item state. -/
def mergeOpenTabs (tabItems : List TabItem) (openTabs : List Tab) :
    Except String (List TabItem) :=
  mergeSavedOpenTabs
    ((tabItems.filter (fun ti => ti.saved)).map resetSavedItem)
    (openTabs.map makeOpenTabItem)

/-- `mergeTabWindowTabItems`: re-merge saved and open tab items for a window,
optionally inserting a newly created Chrome tab and/or appending a newly
created bookmark. -/
def mergeTabWindowTabItems (tabWindow : TabWindow) (optChromeTab : Option Tab)
    (optBookmark : Option BookmarkNode) : Except String TabWindow :=
  let baseSavedItems :=
    (tabWindow.tabItems.filter (fun ti => ti.saved)).map resetSavedItem
  let baseOpenItems :=
    (tabWindow.tabItems.filter (fun ti => ti.isOpen)).map resetOpenItem
  let updOpenItems :=
    match optChromeTab with
    | some tab => listInsert baseOpenItems tab.index (makeOpenTabItem tab)
    | none => baseOpenItems
  let updSavedItems :=
    match optBookmark with
    | some bm => baseSavedItems ++ [makeBookmarkedTabItem bm]
    | none => baseSavedItems
  match mergeSavedOpenTabs updSavedItems updOpenItems with
  | .error e => .error e
  | .ok mergedItems => .ok (tabWindow.setTabItems mergedItems)

/-- `createTab`: add a newly created Chrome tab to a window. -/
def createTab (tabWindow : TabWindow) (tab : Tab) : Except String TabWindow :=
  mergeTabWindowTabItems tabWindow (some tab) none

/-- `createSavedTab`: add a saved tab (tab plus bookmark node). -/
def createSavedTab (tabWindow : TabWindow) (tab : Tab) (bmNode : BookmarkNode) :
    Except String TabWindow :=
  mergeTabWindowTabItems tabWindow (some tab) (some bmNode)

/-- `createBookmark`: add a newly created bookmark to a window. -/
def createBookmark (tabWindow : TabWindow) (bm : BookmarkNode) :
    Except String TabWindow :=
  mergeTabWindowTabItems tabWindow none (some bm)

/-- `updateWindow`: update a window from a current Chrome window snapshot. -/
def updateWindow (tabWindow : TabWindow) (chromeWindow : ChromeWindow) :
    Except String TabWindow :=
  match mergeOpenTabs tabWindow.tabItems chromeWindow.tabs with
  | .error e => .error e
  | .ok mergedTabItems =>
    .ok { tabWindow with
      tabItems := mergedTabItems,
      windowType := chromeWindow.type,
      isOpen := true,
      openWindowId := chromeWindow.id,
      snapshot := false,
      chromeSessionId := none }

/-- `closeTab`: handle a closed live tab.  A missed id lookup returns the
window unchanged. -/
def closeTab (tabWindow : TabWindow) (tabId : Int) : TabWindow :=
  match tabWindow.findChromeTabId tabId with
  | none => tabWindow
  | some (index, tabItem) =>
    if tabItem.saved then
      tabWindow.setTabItems
        (listSplice tabWindow.tabItems index 1 [resetSavedItem tabItem])
    else
      tabWindow.setTabItems (listSplice tabWindow.tabItems index 1 [])

/-- `saveTab`: attach freshly constructed saved state to an open tab.  The
source builds `new SavedTabState(tabNode)`; a bookmark node's `id`/`index`
keys are not `SavedTabState` record keys, so only `url` and `title` carry
over and `bookmarkId`/`bookmarkIndex` keep their record defaults. -/
def saveTab (tabWindow : TabWindow) (tabItem : TabItem) (tabNode : BookmarkNode) :
    Except String TabWindow :=
  match tabItem.safeOpenState with
  | .error e => .error e
  | .ok os =>
    match tabWindow.findChromeTabId os.openTabId with
    | none => .ok tabWindow
    | some (index, _) =>
      let savedState : SavedTabState := { url := tabNode.url, title := tabNode.title }
      let updTabItem := { tabItem with saved := true, savedState := some savedState }
      .ok (tabWindow.setTabItems (listSplice tabWindow.tabItems index 1 [updTabItem]))

/-- `unsaveTab`: drop the saved state of the item found by the argument's
bookmark id; remove the item entirely if it is not open. -/
def unsaveTab (tabWindow : TabWindow) (tabItem : TabItem) :
    Except String TabWindow :=
  match findEntryExceptAux
      (fun ti =>
        if ti.saved then
          match ti.safeSavedState with
          | .error e => .error e
          | .ok ssTi =>
            match tabItem.safeSavedState with
            | .error e => .error e
            | .ok ssArg => .ok (decide (ssTi.bookmarkId = ssArg.bookmarkId))
        else .ok false)
      tabWindow.tabItems 0 with
  | .error e => .error e
  | .ok none => .ok tabWindow
  | .ok (some (index, sourceTabItem)) =>
    let updTabItem := resetOpenItem sourceTabItem
    if updTabItem.isOpen then
      .ok (tabWindow.setTabItems
        (listSplice tabWindow.tabItems index 1 [updTabItem]))
    else
      .ok (tabWindow.setTabItems (listSplice tabWindow.tabItems index 1 []))

/-- The per-item pass of `setActiveTab` clearing the `active` flag (a Record
`remove('active')` resets it to its default `false`). -/
def tabItemRemoveActive (ti : TabItem) : Except String TabItem :=
  if ti.isOpen then
    match ti.safeOpenState with
    | .error e => .error e
    | .ok os => .ok { ti with openState := some { os with active := false } }
  else
    .ok ti

/-- `setActiveTab`: set the active tab of a window by live tab id.  The
source's already-active early return reads `tabItem.active`, which is not a
`TabItem` record key, so it is always `undefined` (falsy) and the early
return never fires; it is therefore absent here. -/
def setActiveTab (tabWindow : TabWindow) (tabId : Int) :
    Except String TabWindow :=
  match tabWindow.findChromeTabId tabId with
  | none => .ok tabWindow
  | some (index, tabItem) =>
    match mapExcept tabItemRemoveActive tabWindow.tabItems with
    | .error e => .error e
    | .ok nonActiveItems =>
      match tabItem.safeOpenState with
      | .error e => .error e
      | .ok os =>
        let updActiveTab :=
          { tabItem with openState := some { os with active := true } }
        .ok (tabWindow.setTabItems
          (listSplice nonActiveItems index 1 [updActiveTab]))

/-- A `changeInfo` payload: a partial field-name-to-value mapping.  A field
is present exactly when it is `some`. -/
structure ChangeInfo where
  url : Option String := none
  openTabId : Option Int := none
  active : Option Bool := none
  openTabIndex : Option Int := none
  favIconUrl : Option String := none
  title : Option String := none
  audible : Option Bool := none
  pinned : Option Bool := none
  bookmarkId : Option String := none
  bookmarkIndex : Option Int := none
deriving Repr, DecidableEq

/-- Is the intersection of the changeInfo keys with the `OpenTabState`
record keys empty? -/
def openUpdKeysEmpty (ci : ChangeInfo) : Bool :=
  ci.url.isNone && ci.openTabId.isNone && ci.active.isNone &&
  ci.openTabIndex.isNone && ci.favIconUrl.isNone && ci.title.isNone &&
  ci.audible.isNone && ci.pinned.isNone

/-- Apply the open-state fields present in a changeInfo to an
`OpenTabState` (the reduce over `updKeys`). -/
def applyOpenChanges (os : OpenTabState) (ci : ChangeInfo) : OpenTabState :=
  { url := ci.url.getD os.url,
    openTabId := ci.openTabId.getD os.openTabId,
    active := ci.active.getD os.active,
    openTabIndex := ci.openTabIndex.getD os.openTabIndex,
    favIconUrl := ci.favIconUrl.getD os.favIconUrl,
    title := ci.title.getD os.title,
    audible := ci.audible.getD os.audible,
    pinned := ci.pinned.getD os.pinned }

/-- Is the intersection of the changeInfo keys with the `SavedTabState`
record keys empty? -/
def savedUpdKeysEmpty (ci : ChangeInfo) : Bool :=
  ci.bookmarkId.isNone && ci.bookmarkIndex.isNone &&
  ci.title.isNone && ci.url.isNone

/-- Apply the saved-state fields present in a changeInfo to a
`SavedTabState`. -/
def applySavedChanges (ss : SavedTabState) (ci : ChangeInfo) : SavedTabState :=
  { bookmarkId := ci.bookmarkId.getD ss.bookmarkId,
    bookmarkIndex := ci.bookmarkIndex.getD ss.bookmarkIndex,
    title := ci.title.getD ss.title,
    url := ci.url.getD ss.url }

/-- `updateTabItem`: update a tab item to the latest Chrome tab state; a url
change forces a full re-merge. -/
def updateTabItem (tabWindow : TabWindow) (tabId : Int) (ci : ChangeInfo) :
    Except String TabWindow :=
  match tabWindow.findChromeTabId tabId with
  | none => .ok tabWindow
  | some (index, prevTabItem) =>
    match prevTabItem.openState with
    | none => .ok tabWindow
    | some prevOpenState =>
      if openUpdKeysEmpty ci then .ok tabWindow
      else
        let updOpenState := applyOpenChanges prevOpenState ci
        let updTabItem := { prevTabItem with openState := some updOpenState }
        let updItems := listSplice tabWindow.tabItems index 1 [updTabItem]
        let updWindow := tabWindow.setTabItems updItems
        if ci.url.isSome then mergeTabWindowTabItems updWindow none none
        else .ok updWindow

/-- `updateTabBookmark`: update a tab item's saved state from a bookmark
change notification.  NOTE (faithful to the source): the existence check is
`if (!index)` on the numeric `indexOf` result, so only index `0` is treated
as not found, while a true miss (`-1`) falls through and splices at `-1`. -/
def updateTabBookmark (tabWindow : TabWindow) (tabItem : TabItem)
    (ci : ChangeInfo) : Except String TabWindow :=
  let index := tabWindow.indexOf tabItem
  if index = 0 then .ok tabWindow
  else
    match tabItem.savedState with
    | none => .ok tabWindow
    | some prevSavedState =>
      if savedUpdKeysEmpty ci then .ok tabWindow
      else
        let updTabItem :=
          { tabItem with savedState := some (applySavedChanges prevSavedState ci) }
        let updItems := listSplice tabWindow.tabItems index 1 [updTabItem]
        let updWindow := tabWindow.setTabItems updItems
        if ci.url.isSome then mergeTabWindowTabItems updWindow none none
        else .ok updWindow

end Tabli

namespace Tabli

/-! ## Well-formedness predicates and helper observations -/

/-- Item invariant: each presence flag is backed by its state payload. -/
def wfItem (ti : TabItem) : Prop :=
  (ti.isOpen = true → ti.openState ≠ none) ∧
  (ti.saved = true → ti.savedState ≠ none)

instance (ti : TabItem) : Decidable (wfItem ti) := by
  unfold wfItem; infer_instance

/-- A saved-only item: `saved=true` with `savedState` present, no open side. -/
def savedOnly (ti : TabItem) : Prop :=
  ti.saved = true ∧ ti.savedState ≠ none ∧ ti.isOpen = false ∧ ti.openState = none

instance (ti : TabItem) : Decidable (savedOnly ti) := by
  unfold savedOnly; infer_instance

/-- An open-only item: `open=true` with `openState` present, no saved side. -/
def openOnly (ti : TabItem) : Prop :=
  ti.isOpen = true ∧ ti.openState ≠ none ∧ ti.saved = false ∧ ti.savedState = none

instance (ti : TabItem) : Decidable (openOnly ti) := by
  unfold openOnly; infer_instance

/-- The `active` flag carried by an item's open state, `false` when absent. -/
def openActive (ti : TabItem) : Bool :=
  match ti.openState with
  | some os => os.active
  | none => false

/-- The live tab id carried by an item's open state. -/
def openTabIdOf (ti : TabItem) : Option Int :=
  ti.openState.map (fun os => os.openTabId)

/-- Projection of an item to everything except the `active` flag of its open
state; used to state that an operation only toggles `active`. -/
def itemKey (ti : TabItem) :
    Bool × Bool × Option SavedTabState ×
      Option (String × Int × Int × String × String × Bool × Bool) :=
  (ti.isOpen, ti.saved, ti.savedState,
   ti.openState.map (fun os =>
     (os.url, os.openTabId, os.openTabIndex, os.favIconUrl, os.title,
      os.audible, os.pinned)))

theorem safeSavedState_ok {ti : TabItem} {ss : SavedTabState}
    (h1 : ti.saved = true) (h2 : ti.savedState = some ss) :
    ti.safeSavedState = .ok ss := by
  simp [TabItem.safeSavedState, h1, h2]

theorem safeOpenState_ok {ti : TabItem} {os : OpenTabState}
    (h1 : ti.isOpen = true) (h2 : ti.openState = some os) :
    ti.safeOpenState = .ok os := by
  simp [TabItem.safeOpenState, h1, h2]

theorem safeSavedState_error {ti : TabItem}
    (h : ti.saved = false ∨ ti.savedState = none) :
    ti.safeSavedState = .error "Unexpected access of savedState on unsaved tab" := by
  unfold TabItem.safeSavedState
  rcases h with h | h
  · rw [h]
  · rw [h]
    cases ti.saved <;> rfl

theorem mapExcept_ok_of {α β : Type} (f : α → Except String β) (g : α → β) :
    ∀ l : List α, (∀ x ∈ l, f x = .ok (g x)) → mapExcept f l = .ok (l.map g) := by
  intro l
  induction l with
  | nil => intro _; rfl
  | cons x xs ih =>
    intro h
    have hx := h x (by simp)
    have hxs := ih (fun y hy => h y (by simp [hy]))
    simp [mapExcept, hx, hxs, bind, Except.bind, pure, Except.pure]

theorem findEntryAux_some {α : Type} (p : α → Bool) :
    ∀ (l : List α) (n i : Nat) (x : α), findEntryAux p l n = some (i, x) →
      n ≤ i ∧ i - n < l.length ∧ l[i - n]? = some x ∧ p x = true := by
  intro l
  induction l with
  | nil => intro n i x h; simp [findEntryAux] at h
  | cons hd tl ih =>
    intro n i x h
    unfold findEntryAux at h
    by_cases hp : p hd
    · simp [hp] at h
      obtain ⟨h1, h2⟩ := h
      subst h1; subst h2
      simp [hp]
    · simp [hp] at h
      obtain ⟨hn, hlen, hget, hpx⟩ := ih (n + 1) i x h
      refine ⟨by omega, by simp; omega, ?_, hpx⟩
      have hix : i - n = (i - (n + 1)) + 1 := by omega
      rw [hix]
      simpa using hget

theorem findChromeTabId_some {w : TabWindow} {tabId : Int} {i : Nat}
    {ti : TabItem} (h : w.findChromeTabId tabId = some (i, ti)) :
    i < w.tabItems.length ∧ w.tabItems[i]? = some ti ∧ ti.isOpen = true ∧
      ∃ os, ti.openState = some os ∧ os.openTabId = tabId := by
  obtain ⟨_, hlen, hget, hp⟩ := findEntryAux_some _ _ _ _ _ h
  simp at hlen hget
  refine ⟨hlen, hget, ?_⟩
  simp [Bool.and_eq_true] at hp
  obtain ⟨h1, h2⟩ := hp
  refine ⟨h1, ?_⟩
  cases hos : ti.openState with
  | none => rw [hos] at h2; simp at h2
  | some os =>
    rw [hos] at h2
    simp at h2
    exact ⟨os, rfl, h2⟩

theorem savedPairsOf_ok :
    ∀ S : List TabItem, (∀ ti ∈ S, ti.saved = true ∧ ti.savedState ≠ none) →
      savedPairsOf S = .ok (S.map fun ti => (savedUrl ti, ti)) := by
  intro S
  induction S with
  | nil => intro _; rfl
  | cons ti rest ih =>
    intro h
    obtain ⟨h1, h2⟩ := h ti (by simp)
    cases hss : ti.savedState with
    | none => exact absurd hss h2
    | some ss =>
      have hok := safeSavedState_ok h1 hss
      have hrest := ih (fun x hx => h x (by simp [hx]))
      simp [savedPairsOf, hok, hrest, bind, Except.bind, pure, Except.pure,
        savedUrl, hss]

theorem savedPairsOf_error :
    ∀ S : List TabItem, (∃ ti ∈ S, ti.saved = false ∨ ti.savedState = none) →
      ∃ e, savedPairsOf S = .error e := by
  intro S
  induction S with
  | nil => intro h; simp at h
  | cons ti rest ih =>
    intro h
    by_cases hbad : ti.saved = false ∨ ti.savedState = none
    · have herr := safeSavedState_error hbad
      refine ⟨"Unexpected access of savedState on unsaved tab", ?_⟩
      simp [savedPairsOf, herr, bind, Except.bind]
    · push_neg at hbad
      obtain ⟨h1, h2⟩ := hbad
      simp at h1
      cases hss : ti.savedState with
      | none => exact absurd hss h2
      | some ss =>
        have hok := safeSavedState_ok h1 hss
        have hmem : ∃ x ∈ rest, x.saved = false ∨ x.savedState = none := by
          obtain ⟨x, hx, hxbad⟩ := h
          rcases List.mem_cons.mp hx with heq | hxr
          · subst heq
            rcases hxbad with hb | hb
            · rw [h1] at hb; exact absurd hb (by simp)
            · exact absurd hb h2
          · exact ⟨x, hxr, hxbad⟩
        obtain ⟨e, he⟩ := ih hmem
        exact ⟨e, by simp [savedPairsOf, hok, he, bind, Except.bind]⟩

theorem mergeSavedOpenTabs_ok {S : List TabItem} (O : List TabItem)
    (h : ∀ ti ∈ S, ti.saved = true ∧ ti.savedState ≠ none) :
    mergeSavedOpenTabs S O =
      .ok (O.map (mergeEnrich (S.map fun ti => (savedUrl ti, ti))) ++
        S.filter (closedPred O)) := by
  simp [mergeSavedOpenTabs, savedPairsOf_ok S h, bind, Except.bind, pure,
    Except.pure]

theorem lastLookup_eq_none {pairs : List (String × TabItem)} {u : String}
    (h : ∀ p ∈ pairs, p.1 ≠ u) : lastLookup pairs u = none := by
  unfold lastLookup
  suffices hgen : ∀ acc : Option TabItem,
      pairs.foldl (fun acc p => if p.1 = u then some p.2 else acc) acc = acc by
    exact hgen none
  induction pairs with
  | nil => intro acc; rfl
  | cons p rest ih =>
    intro acc
    have hp : p.1 ≠ u := h p (by simp)
    simp only [List.foldl_cons, if_neg hp]
    exact ih (fun q hq => h q (by simp [hq])) acc

theorem lastLookup_mem :
    ∀ (pairs : List (String × TabItem)) (u : String) (v : TabItem),
      lastLookup pairs u = some v → (u, v) ∈ pairs := by
  suffices hgen : ∀ (pairs : List (String × TabItem)) (acc : Option TabItem)
      (u : String) (v : TabItem),
      pairs.foldl (fun acc p => if p.1 = u then some p.2 else acc) acc = some v →
      (u, v) ∈ pairs ∨ acc = some v by
    intro pairs u v h
    rcases hgen pairs none u v h with hmem | hcontra
    · exact hmem
    · simp at hcontra
  intro pairs
  induction pairs with
  | nil => intro acc u v h; simp at h; simp [h]
  | cons p rest ih =>
    intro acc u v h
    simp only [List.foldl_cons] at h
    rcases ih _ u v h with hmem | hacc
    · exact Or.inl (by simp [hmem])
    · by_cases hp : p.1 = u
      · rw [if_pos hp] at hacc
        simp at hacc
        left
        have : p = (u, v) := by
          cases p with
          | mk a b => simp at hp hacc; simp [hp, hacc]
        simp [this]
      · rw [if_neg hp] at hacc
        exact Or.inr hacc

theorem mergeEnrich_isOpen (pairs : List (String × TabItem)) (ti : TabItem) :
    (mergeEnrich pairs ti).isOpen = ti.isOpen := by
  cases ti with
  | mk saved savedState isOpen openState =>
    cases openState with
    | none => rfl
    | some os =>
      unfold mergeEnrich
      dsimp only
      cases lastLookup pairs os.url <;> rfl

theorem mergeEnrich_openState (pairs : List (String × TabItem)) (ti : TabItem) :
    (mergeEnrich pairs ti).openState = ti.openState := by
  cases ti with
  | mk saved savedState isOpen openState =>
    cases openState with
    | none => rfl
    | some os =>
      unfold mergeEnrich
      dsimp only
      cases lastLookup pairs os.url <;> rfl

end Tabli

namespace Tabli

/-! ## Concrete example values used to instantiate and refute claims -/

/-- Saved state for url `a.com`. -/
def ssA : SavedTabState :=
  { bookmarkId := "bm1", bookmarkIndex := 0, title := "A", url := "a.com" }

/-- Saved state for url `b.com`. -/
def ssB : SavedTabState :=
  { bookmarkId := "bm2", bookmarkIndex := 1, title := "B", url := "b.com" }

/-- Open state for url `a.com`, live tab id 1, active. -/
def osA : OpenTabState :=
  { url := "a.com", openTabId := 1, active := true, openTabIndex := 0, title := "A" }

/-- An item that is both open and saved for url `a.com` (merged item). -/
def mergedItemA : TabItem :=
  { saved := true, savedState := some ssA, isOpen := true, openState := some osA }

/-- A closed, saved-only item for url `a.com`. -/
def savedOnlyItemA : TabItem := { saved := true, savedState := some ssA }

/-- A closed, saved-only item for url `b.com`. -/
def savedOnlyItemB : TabItem := { saved := true, savedState := some ssB }

/-- An open-only item for url `a.com`. -/
def openOnlyItemA : TabItem := { isOpen := true, openState := some osA }

/-- A saved window that is currently open, holding one merged item. -/
def exampleOpenSavedWindow : TabWindow :=
  { saved := true, savedTitle := "W", savedFolderId := "f1",
    isOpen := true, openWindowId := 5, windowType := "normal",
    width := 100, height := 80, tabItems := [mergedItemA] }

/-- A saved, closed window holding one saved-only item. -/
def exampleSavedWindow : TabWindow :=
  { saved := true, savedTitle := "W", savedFolderId := "f1",
    tabItems := [savedOnlyItemA] }

/-! ## C10 — the merge evaluates the saved-state safe accessor on every
saved item -/

/-- C10: `mergeSavedOpenTabs` evaluates `safeSavedState` on every element of
`savedItems` while building the saved-url map: if any element has
`saved=false` or `savedState=null` the merge raises an error instead of
returning a list, and when every element is saved with a present
`savedState` the error branch is unreachable and the merge returns a
result. -/
theorem mergeSavedOpenTabs_requires_savedState (S O : List TabItem) :
    ((∃ ti ∈ S, ti.saved = false ∨ ti.savedState = none) →
      ∃ e, mergeSavedOpenTabs S O = .error e) ∧
    ((∀ ti ∈ S, ti.saved = true ∧ ti.savedState ≠ none) →
      ∃ r, mergeSavedOpenTabs S O = .ok r) := by
  constructor
  · intro h
    obtain ⟨e, he⟩ := savedPairsOf_error S h
    refine ⟨e, ?_⟩
    simp [mergeSavedOpenTabs, he, bind, Except.bind]
  · intro h
    exact ⟨_, mergeSavedOpenTabs_ok O h⟩

theorem mergeSavedOpenTabs_requires_savedState_witness :
    (∃ ti ∈ [openOnlyItemA], ti.saved = false ∨ ti.savedState = none) ∧
    (∃ e, mergeSavedOpenTabs [openOnlyItemA] [] = .error e) ∧
    (∀ ti ∈ [savedOnlyItemA], ti.saved = true ∧ ti.savedState ≠ none) ∧
    (∃ r, mergeSavedOpenTabs [savedOnlyItemA] [] = .ok r) :=
  ⟨by decide,
   (mergeSavedOpenTabs_requires_savedState [openOnlyItemA] []).1 (by decide),
   by decide,
   (mergeSavedOpenTabs_requires_savedState [savedOnlyItemA] []).2 (by decide)⟩

/-! ## C3 — `removeOpenWindowState` marks the window a snapshot even when no
snapshot was requested (code bug evidence) -/

/-- C3 (code-bug evidence): the source's `removeOpenWindowState` ends in an
unconditional `.set('snapshot', true)`, so the `snapshot=false` variant also
marks the window as a snapshot while keeping only saved-only items.  On the
concrete open saved window the non-snapshot call yields `snapshot = true`,
contradicting the claim (and the source's own doc of the `snapshot` flag:
set only when `tabItems` contains a snapshot of last open state). -/
theorem removeOpenWindowState_false_sets_snapshot :
    removeOpenWindowState exampleOpenSavedWindow false =
      .ok { saved := true, savedTitle := "W", savedFolderId := "f1",
            tabItems := [savedOnlyItemA], snapshot := true } := by
  rfl

/-! ## C9 — `updateTabBookmark` treats index 0 as not-found (code bug
evidence) -/

/-- C9 (code-bug evidence): `updateTabBookmark`'s existence check is
`if (!index)` on the numeric `indexOf` result, so an item located at index 0
is treated as not found and the update is silently dropped: a title change
against the item at index 0 returns the window unchanged, while the claim
(and the spec's intent) requires the title field to be applied. -/
theorem updateTabBookmark_index_zero_treated_as_missing :
    updateTabBookmark exampleSavedWindow savedOnlyItemA { title := some "B" } =
      .ok exampleSavedWindow := by
  rfl

/-! ## C4 — a missed lookup in `updateTabBookmark` modifies the window
(code bug evidence) -/

/-- The foreign item of the C4 failing input after its title patch. -/
def c4PatchedItem : TabItem :=
  { saved := true, savedState := some { ssB with title := "T2" } }

/-- The window `updateTabBookmark` actually returns on the C4 failing
input. -/
def c4ResultWindow : TabWindow :=
  { exampleSavedWindow with tabItems := [c4PatchedItem] }

/-- C4 (code-bug evidence): for an item NOT present in the window,
`indexOf` yields `-1`, which the falsy check `if (!index)` treats as found;
the code then splices at `-1`, replacing the LAST item of the window with
the patched foreign item.  So a missed identity lookup in
`updateTabBookmark` does not return the window unmodified: here the
window's only item `savedOnlyItemA` is replaced by the foreign patched
item. -/
theorem updateTabBookmark_missed_lookup_modifies_window :
    updateTabBookmark exampleSavedWindow savedOnlyItemB { title := some "T2" } =
      .ok c4ResultWindow ∧
    c4ResultWindow ≠ exampleSavedWindow ∧
    savedOnlyItemB ∉ exampleSavedWindow.tabItems := by
  refine ⟨rfl, by decide, by decide⟩

/-! ## C7 — the stable identifier's prefixes, and stability under close -/

/-- C7 (counterexample): the derived identifier of a saved window is
`'_saved' + savedFolderId`, not `"saved:" + savedFolderId` as the claim
states. -/
theorem tabWindow_id_prefix_counterexample :
    TabWindow.id exampleSavedWindow ≠ "saved:" ++ exampleSavedWindow.savedFolderId ∧
    TabWindow.id exampleSavedWindow = "_saved" ++ exampleSavedWindow.savedFolderId := by
  constructor
  · decide
  · rfl

/-- C7 (amended): the derived stable identifier equals
`'_saved' + savedFolderId` when the window is saved, else
`'_open' + openWindowId`; and for every saved window and snapshot flag, a
successful `removeOpenWindowState` preserves the identifier (saved identity
survives closing the window). -/
theorem tabWindow_id_saved_prefix_and_close_stable (w : TabWindow) :
    (w.saved = true → w.id = "_saved" ++ w.savedFolderId) ∧
    (w.saved = false → w.id = "_open" ++ toString w.openWindowId) ∧
    (∀ (s : Bool) (w' : TabWindow), w.saved = true →
      removeOpenWindowState w s = .ok w' → w'.id = w.id) := by
  refine ⟨fun h => by simp [TabWindow.id, h], fun h => by simp [TabWindow.id, h], ?_⟩
  intro s w' hs hok
  unfold removeOpenWindowState at hok
  split at hok
  · exact absurd hok (by simp)
  · simp only [Except.ok.injEq] at hok
    subst hok
    simp [TabWindow.id, hs]

theorem tabWindow_id_saved_prefix_and_close_stable_witness :
    exampleSavedWindow.saved = true ∧
    TabWindow.id exampleSavedWindow = "_saved" ++ exampleSavedWindow.savedFolderId ∧
    TabWindow.id { saved := true, savedTitle := "W", savedFolderId := "f1",
                   tabItems := [savedOnlyItemA], snapshot := true } =
      TabWindow.id exampleSavedWindow :=
  ⟨rfl,
   (tabWindow_id_saved_prefix_and_close_stable exampleSavedWindow).1 rfl,
   (tabWindow_id_saved_prefix_and_close_stable exampleSavedWindow).2.2 false
     { saved := true, savedTitle := "W", savedFolderId := "f1",
       tabItems := [savedOnlyItemA], snapshot := true } rfl rfl⟩

end Tabli

namespace Tabli

/-! ## Facts about the derived url and the merge enrichment step -/

theorem url_of_not_open {ti : TabItem} (h : ti.isOpen = false) :
    TabItem.url ti = savedUrl ti := by
  cases ti with
  | mk saved savedState isOpen openState =>
    dsimp only at h
    subst h
    cases openState <;> cases savedState <;> rfl

theorem url_of_open {ti : TabItem} {os : OpenTabState}
    (h1 : ti.isOpen = true) (h2 : ti.openState = some os) :
    TabItem.url ti = os.url := by
  cases ti with
  | mk saved savedState isOpen openState =>
    dsimp only at h1 h2
    subst h1; subst h2
    rfl

theorem mergeEnrich_of_openState_none {pairs : List (String × TabItem)}
    {ti : TabItem} (h : ti.openState = none) : mergeEnrich pairs ti = ti := by
  unfold mergeEnrich
  rw [h]

theorem mergeEnrich_url_of_open {pairs : List (String × TabItem)}
    {ti : TabItem} (h : ti.isOpen = true) :
    (mergeEnrich pairs ti).url = ti.url := by
  cases hos : ti.openState with
  | none => rw [mergeEnrich_of_openState_none hos]
  | some os =>
    have h1 := mergeEnrich_isOpen pairs ti
    have h2 := mergeEnrich_openState pairs ti
    rw [url_of_open (h1.trans h) (h2.trans hos), url_of_open h hos]

/-! ## C1 — merge identity -/

/-- C1: for saved-item list S (all saved with savedState, no open side) and
open-item list O (all open with openState, no saved side) that are disjoint
by URL, the merge returns a list of exactly
`|O| + |{s in S : s.url not in O.urls}|` items; every URL of O appears on an
open item of the result, every saved URL not open appears on a closed saved
item, and a URL present in both S and O appears exactly once as a merged
item carrying both states (vacuous here because the claim also assumes the
two inputs URL-disjoint). -/
theorem mergeSavedOpenTabs_merge_identity (S O : List TabItem)
    (hs : ∀ ti ∈ S, savedOnly ti) (ho : ∀ ti ∈ O, openOnly ti)
    (hdisj : ∀ s ∈ S, ∀ o ∈ O, TabItem.url s ≠ TabItem.url o) :
    ∃ r, mergeSavedOpenTabs S O = .ok r ∧
      r.length = O.length +
        (S.filter (fun s => !((O.map TabItem.url).contains s.url))).length ∧
      (∀ o ∈ O, ∃ it ∈ r, it.isOpen = true ∧ it.url = o.url) ∧
      (∀ s ∈ S, s.url ∉ O.map TabItem.url →
        ∃ it ∈ r, it.isOpen = false ∧ it.saved = true ∧ it.url = s.url) ∧
      (∀ u, u ∈ S.map TabItem.url → u ∈ O.map TabItem.url →
        ((r.filter (fun it => decide (it.url = u))).length = 1 ∧
          ∃ it ∈ r, it.url = u ∧ it.isOpen = true ∧ it.saved = true)) := by
  have hs' : ∀ ti ∈ S, ti.saved = true ∧ ti.savedState ≠ none :=
    fun ti hti => ⟨(hs ti hti).1, (hs ti hti).2.1⟩
  have hfilter : S.filter (closedPred O) =
      S.filter (fun s => !((O.map TabItem.url).contains s.url)) := by
    apply List.filter_congr
    intro s hsmem
    obtain ⟨_, hssne, hnotopen, _⟩ := hs s hsmem
    cases hss : s.savedState with
    | none => exact absurd hss hssne
    | some ss =>
      have hurl : TabItem.url s = ss.url := by
        rw [url_of_not_open hnotopen, savedUrl, hss]
      simp only [closedPred, hss, hurl]
  refine ⟨_, mergeSavedOpenTabs_ok O hs', ?_, ?_, ?_, ?_⟩
  · rw [List.length_append, List.length_map, hfilter]
  · intro o homem
    obtain ⟨hopen, _, _, _⟩ := ho o homem
    refine ⟨mergeEnrich (S.map fun ti => (savedUrl ti, ti)) o, ?_, ?_, ?_⟩
    · exact List.mem_append_left _ (List.mem_map_of_mem _ homem)
    · rw [mergeEnrich_isOpen]; exact hopen
    · exact mergeEnrich_url_of_open hopen
  · intro s hsmem hnotin
    obtain ⟨hsaved, hssne, hnotopen, _⟩ := hs s hsmem
    refine ⟨s, ?_, hnotopen, hsaved, rfl⟩
    apply List.mem_append_right
    apply List.mem_filter.mpr
    refine ⟨hsmem, ?_⟩
    cases hss : s.savedState with
    | none => exact absurd hss hssne
    | some ss =>
      have hurl : TabItem.url s = ss.url := by
        rw [url_of_not_open hnotopen, savedUrl, hss]
      simp only [closedPred, hss]
      rw [← hurl]
      simpa using hnotin
  · intro u huS huO
    obtain ⟨s0, hs0, hs0u⟩ := List.mem_map.mp huS
    obtain ⟨o0, ho0, ho0u⟩ := List.mem_map.mp huO
    exact absurd (hs0u.trans ho0u.symm) (hdisj s0 hs0 o0 ho0)

/-! ## C2 — merge order preservation -/

/-- C2: the merge result is the items derived from O — same length-|O|
prefix, with each position's open identity (`isOpen`, `openState`) equal to
that of the corresponding O item, in exactly O's order — followed by the
saved items of S whose URL is not among O's URLs, in exactly their relative
order from S (stated as equality of the dropped suffix with the filter of
S). -/
theorem mergeSavedOpenTabs_order_preserved (S O : List TabItem)
    (hs : ∀ ti ∈ S, savedOnly ti) (_ho : ∀ ti ∈ O, openOnly ti) :
    ∃ r, mergeSavedOpenTabs S O = .ok r ∧
      (r.take O.length).map TabItem.openState = O.map TabItem.openState ∧
      (r.take O.length).map TabItem.isOpen = O.map TabItem.isOpen ∧
      r.drop O.length = S.filter (fun s => !((O.map TabItem.url).contains s.url)) := by
  have hs' : ∀ ti ∈ S, ti.saved = true ∧ ti.savedState ≠ none :=
    fun ti hti => ⟨(hs ti hti).1, (hs ti hti).2.1⟩
  refine ⟨_, mergeSavedOpenTabs_ok O hs', ?_, ?_, ?_⟩
  · rw [show O.length = (O.map (mergeEnrich (S.map fun ti => (savedUrl ti, ti)))).length
        from (List.length_map _ _).symm,
      List.take_left, List.map_map]
    exact List.map_congr_left fun ti _ => mergeEnrich_openState _ ti
  · rw [show O.length = (O.map (mergeEnrich (S.map fun ti => (savedUrl ti, ti)))).length
        from (List.length_map _ _).symm,
      List.take_left, List.map_map]
    exact List.map_congr_left fun ti _ => mergeEnrich_isOpen _ ti
  · rw [show O.length = (O.map (mergeEnrich (S.map fun ti => (savedUrl ti, ti)))).length
        from (List.length_map _ _).symm,
      List.drop_left]
    apply List.filter_congr
    intro s hsmem
    obtain ⟨_, hssne, hnotopen, _⟩ := hs s hsmem
    cases hss : s.savedState with
    | none => exact absurd hss hssne
    | some ss =>
      have hurl : TabItem.url s = ss.url := by
        rw [url_of_not_open hnotopen, savedUrl, hss]
      simp only [closedPred, hss, hurl]

end Tabli

namespace Tabli

/-- Open state for url `b.com`, live tab id 2, inactive. -/
def osB : OpenTabState :=
  { url := "b.com", openTabId := 2, active := false, openTabIndex := 1, title := "B2" }

/-- An open-only item for url `b.com`. -/
def openOnlyItemB : TabItem := { isOpen := true, openState := some osB }

theorem mergeSavedOpenTabs_merge_identity_witness :
    (∀ ti ∈ [savedOnlyItemA], savedOnly ti) ∧
    (∀ ti ∈ [openOnlyItemB], openOnly ti) ∧
    (∀ s ∈ [savedOnlyItemA], ∀ o ∈ [openOnlyItemB], TabItem.url s ≠ TabItem.url o) ∧
    (∃ r, mergeSavedOpenTabs [savedOnlyItemA] [openOnlyItemB] = .ok r ∧
      r.length = [openOnlyItemB].length +
        (([savedOnlyItemA]).filter
          (fun s => !((([openOnlyItemB]).map TabItem.url).contains s.url))).length ∧
      (∀ o ∈ [openOnlyItemB], ∃ it ∈ r, it.isOpen = true ∧ it.url = o.url) ∧
      (∀ s ∈ [savedOnlyItemA], s.url ∉ ([openOnlyItemB]).map TabItem.url →
        ∃ it ∈ r, it.isOpen = false ∧ it.saved = true ∧ it.url = s.url) ∧
      (∀ u, u ∈ ([savedOnlyItemA]).map TabItem.url →
        u ∈ ([openOnlyItemB]).map TabItem.url →
        ((r.filter (fun it => decide (it.url = u))).length = 1 ∧
          ∃ it ∈ r, it.url = u ∧ it.isOpen = true ∧ it.saved = true))) :=
  ⟨by decide, by decide, by decide,
   mergeSavedOpenTabs_merge_identity [savedOnlyItemA] [openOnlyItemB]
     (by decide) (by decide) (by decide)⟩

theorem mergeSavedOpenTabs_order_preserved_witness :
    (∀ ti ∈ [savedOnlyItemA, savedOnlyItemB], savedOnly ti) ∧
    (∀ ti ∈ [openOnlyItemB], openOnly ti) ∧
    (∃ r, mergeSavedOpenTabs [savedOnlyItemA, savedOnlyItemB] [openOnlyItemB] = .ok r ∧
      (r.take ([openOnlyItemB]).length).map TabItem.openState =
        ([openOnlyItemB]).map TabItem.openState ∧
      (r.take ([openOnlyItemB]).length).map TabItem.isOpen =
        ([openOnlyItemB]).map TabItem.isOpen ∧
      r.drop ([openOnlyItemB]).length =
        ([savedOnlyItemA, savedOnlyItemB]).filter
          (fun s => !((([openOnlyItemB]).map TabItem.url).contains s.url))) :=
  ⟨by decide, by decide,
   mergeSavedOpenTabs_order_preserved [savedOnlyItemA, savedOnlyItemB]
     [openOnlyItemB] (by decide) (by decide)⟩

end Tabli

namespace Tabli

/-! ## Helpers for `setActiveTab` (C6) -/

/-- Total companion of `tabItemRemoveActive` on well-formed items. -/
def removeActiveT (ti : TabItem) : TabItem :=
  if ti.isOpen then
    match ti.openState with
    | some os => { ti with openState := some { os with active := false } }
    | none => ti
  else ti

theorem tabItemRemoveActive_ok {ti : TabItem} (h : wfItem ti) :
    tabItemRemoveActive ti = .ok (removeActiveT ti) := by
  obtain ⟨h1, _⟩ := h
  unfold tabItemRemoveActive removeActiveT
  cases hop : ti.isOpen with
  | false => simp
  | true =>
    cases hos : ti.openState with
    | none => exact absurd hos (h1 hop)
    | some os => simp [safeOpenState_ok hop hos, hos]

theorem itemKey_removeActiveT (ti : TabItem) :
    itemKey (removeActiveT ti) = itemKey ti := by
  unfold removeActiveT
  cases hop : ti.isOpen with
  | false => simp
  | true =>
    cases hos : ti.openState with
    | none => simp
    | some os => simp [itemKey, hos, hop]

theorem removeActiveT_not_active {ti : TabItem} (h : wfItem ti) :
    ((removeActiveT ti).isOpen && openActive (removeActiveT ti)) = false := by
  obtain ⟨h1, _⟩ := h
  unfold removeActiveT
  cases hop : ti.isOpen with
  | false => simp [hop]
  | true =>
    cases hos : ti.openState with
    | none => exact absurd hos (h1 hop)
    | some os => simp [openActive]

theorem listSplice_replace_one {α : Type} (l : List α) (i : Nat) (x : α)
    (h : i ≤ l.length) :
    listSplice l (i : Int) 1 [x] = l.take i ++ x :: l.drop (i + 1) := by
  unfold listSplice
  have h1 : ¬ ((i : Int) < 0) := by omega
  have h2 : (min ((i : Int)) ((l.length : Int))).toNat = i := by
    rw [min_eq_left (by exact_mod_cast h)]
    simp
  simp only [h1, if_false, h2]
  simp

end Tabli

namespace Tabli

/-! ## C6 — single active tab after `setActiveTab` -/

/-- C6: on a well-formed window, if the tab id identifies an open item then
after `setActiveTab` exactly one open item carries `active=true` — and it
carries the targeted open-tab id — all other open items have `active=false`
(counted by the unique member of the open-and-active filter), and every
item's position and every field other than `active` are unchanged (stated
via the `itemKey` projection); if the id identifies no open item the window
is returned unchanged. -/
theorem setActiveTab_single_active (w : TabWindow) (tabId : Int)
    (hw : ∀ ti ∈ w.tabItems, wfItem ti) :
    (w.findChromeTabId tabId = none → setActiveTab w tabId = .ok w) ∧
    (∀ (i : Nat) (ti : TabItem), w.findChromeTabId tabId = some (i, ti) →
      ∃ w', setActiveTab w tabId = .ok w' ∧
        w'.tabItems.map itemKey = w.tabItems.map itemKey ∧
        (w'.tabItems.filter (fun t => t.isOpen && openActive t)).length = 1 ∧
        (∀ t ∈ w'.tabItems, t.isOpen = true → openActive t = true →
          openTabIdOf t = some tabId)) := by
  constructor
  · intro h
    unfold setActiveTab
    rw [h]
  · intro i ti hfind
    obtain ⟨hlen, hget, hopen, os, hos, hid⟩ := findChromeTabId_some hfind
    have hmapEq : mapExcept tabItemRemoveActive w.tabItems =
        .ok (w.tabItems.map removeActiveT) :=
      mapExcept_ok_of _ _ _ (fun x hx => tabItemRemoveActive_ok (hw x hx))
    have hsafe := safeOpenState_ok hopen hos
    obtain ⟨hlen', hgetL⟩ := List.getElem?_eq_some.mp hget
    set upd : TabItem := { ti with openState := some { os with active := true } }
      with hupd
    set m : List TabItem := w.tabItems.map removeActiveT with hm
    have hmlen : m.length = w.tabItems.length := by simp [hm]
    have hil : i ≤ m.length := by omega
    have hresult : setActiveTab w tabId =
        .ok (w.setTabItems (m.take i ++ upd :: m.drop (i + 1))) := by
      unfold setActiveTab
      rw [hfind]
      simp only [hmapEq, hsafe]
      rw [listSplice_replace_one m i upd hil]
    have hitems : (w.setTabItems (m.take i ++ upd :: m.drop (i + 1))).tabItems =
        m.take i ++ upd :: m.drop (i + 1) := rfl
    have hKm : m.map itemKey = w.tabItems.map itemKey := by
      rw [hm, List.map_map]
      exact List.map_congr_left (fun x _ => itemKey_removeActiveT x)
    have hupdKey : itemKey upd = itemKey ti := by
      simp [hupd, itemKey, hos]
    have hpm : ∀ x ∈ m, (x.isOpen && openActive x) = false := by
      intro x hx
      obtain ⟨y, hy, hyx⟩ := List.mem_map.mp (hm ▸ hx)
      rw [← hyx]
      exact removeActiveT_not_active (hw y hy)
    have hpu : (upd.isOpen && openActive upd) = true := by
      simp [hupd, openActive, hopen]
    refine ⟨w.setTabItems (m.take i ++ upd :: m.drop (i + 1)), hresult, ?_, ?_, ?_⟩
    · rw [hitems, List.map_append, List.map_cons, List.map_take, List.map_drop,
        hKm, hupdKey]
      have hKi : i < (w.tabItems.map itemKey).length := by
        rw [List.length_map]; exact hlen
      have hgetK : (w.tabItems.map itemKey)[i] = itemKey ti := by
        rw [List.getElem_map]
        rw [hgetL]
      rw [← hgetK]
      conv_rhs => rw [← List.take_append_drop i (w.tabItems.map itemKey)]
      rw [List.drop_eq_getElem_cons hKi]
    · rw [hitems, List.filter_append, List.filter_cons]
      have ht : (m.take i).filter (fun t => t.isOpen && openActive t) = [] :=
        List.filter_eq_nil_iff.mpr
          (fun a ha => by simp [hpm a (List.take_subset i m ha)])
      have hd : (m.drop (i + 1)).filter (fun t => t.isOpen && openActive t) = [] :=
        List.filter_eq_nil_iff.mpr
          (fun a ha => by simp [hpm a (List.drop_subset (i + 1) m ha)])
      rw [ht, hd, if_pos hpu]
      rfl
    · intro t htmem htopen htactive
      rw [hitems] at htmem
      rcases List.mem_append.mp htmem with h1 | h2
      · have := hpm t (List.take_subset i m h1)
        rw [htopen, htactive] at this
        simp at this
      · rcases List.mem_cons.mp h2 with heq | h3
        · subst heq
          simp [hupd, openTabIdOf, hid]
        · have := hpm t (List.drop_subset (i + 1) m h3)
          rw [htopen, htactive] at this
          simp at this

/-- A saved+open window with two open tabs (one merged, one open-only). -/
def exampleTwoTabWindow : TabWindow :=
  { saved := true, savedTitle := "W", savedFolderId := "f1",
    isOpen := true, openWindowId := 5, tabItems := [mergedItemA, openOnlyItemB] }

theorem setActiveTab_single_active_witness :
    (∀ ti ∈ exampleTwoTabWindow.tabItems, wfItem ti) ∧
    exampleTwoTabWindow.findChromeTabId 2 = some (1, openOnlyItemB) ∧
    (∃ w', setActiveTab exampleTwoTabWindow 2 = .ok w' ∧
      w'.tabItems.map itemKey = exampleTwoTabWindow.tabItems.map itemKey ∧
      (w'.tabItems.filter (fun t => t.isOpen && openActive t)).length = 1 ∧
      (∀ t ∈ w'.tabItems, t.isOpen = true → openActive t = true →
        openTabIdOf t = some 2)) :=
  ⟨by decide, by decide,
   (setActiveTab_single_active exampleTwoTabWindow 2 (by decide)).2 1
     openOnlyItemB (by decide)⟩

end Tabli

namespace Tabli

/-! ## Helpers for the close/reopen round trip (C8) -/

/-- Total companion of `cleanOpenState` on well-formed items. -/
def cleanOpenStateT (ti : TabItem) : TabItem :=
  if ti.isOpen then
    match ti.openState with
    | some os => { ti with openState := some { os with openTabId := -1 } }
    | none => ti
  else ti

theorem cleanOpenState_ok {ti : TabItem} (h : wfItem ti) :
    cleanOpenState ti = .ok (cleanOpenStateT ti) := by
  obtain ⟨h1, _⟩ := h
  unfold cleanOpenState cleanOpenStateT
  cases hop : ti.isOpen with
  | false => simp
  | true =>
    cases hos : ti.openState with
    | none => exact absurd hos (h1 hop)
    | some os => simp

theorem cleanOpenStateT_saved (ti : TabItem) :
    (cleanOpenStateT ti).saved = ti.saved := by
  unfold cleanOpenStateT
  cases ti.isOpen with
  | false => rfl
  | true => cases ti.openState <;> rfl

theorem cleanOpenStateT_savedState (ti : TabItem) :
    (cleanOpenStateT ti).savedState = ti.savedState := by
  unfold cleanOpenStateT
  cases ti.isOpen with
  | false => rfl
  | true => cases ti.openState <;> rfl

theorem openActive_eq_of_openState {a b : TabItem}
    (h : a.openState = b.openState) : openActive a = openActive b := by
  unfold openActive
  rw [h]

/-! ## C8 — round-trip close/reopen -/

/-- C8: on a well-formed open window, closing with
`removeOpenWindowState(w, snapshot=true)` and then merging back a live
window whose tab list carries the same urls and active flags, in the same
order, as `w`'s open items (via `updateWindow`) yields a window whose open
items have the same URL ordering as `w`'s open items and the same
position carrying `active=true`. -/
theorem updateWindow_roundtrip (w : TabWindow) (cw : ChromeWindow)
    (_hopen : w.isOpen = true)
    (hw : ∀ ti ∈ w.tabItems, wfItem ti)
    (hurl : cw.tabs.map Tab.url =
      (w.tabItems.filter (fun t => t.isOpen)).map TabItem.url)
    (hact : cw.tabs.map Tab.active =
      (w.tabItems.filter (fun t => t.isOpen)).map openActive) :
    ∃ w1 w2, removeOpenWindowState w true = .ok w1 ∧
      updateWindow w1 cw = .ok w2 ∧
      (w2.tabItems.filter (fun t => t.isOpen)).map TabItem.url =
        (w.tabItems.filter (fun t => t.isOpen)).map TabItem.url ∧
      (w2.tabItems.filter (fun t => t.isOpen)).map openActive =
        (w.tabItems.filter (fun t => t.isOpen)).map openActive := by
  have hmc : mapExcept cleanOpenState w.tabItems =
      .ok (w.tabItems.map cleanOpenStateT) :=
    mapExcept_ok_of _ _ _ (fun x hx => cleanOpenState_ok (hw x hx))
  set wSnap : TabWindow := { w with
    isOpen := false, openWindowId := -1, windowType := "",
    width := 0, height := 0,
    tabItems := w.tabItems.map cleanOpenStateT, snapshot := true } with hwSnap
  have h1 : removeOpenWindowState w true = .ok wSnap := by
    unfold removeOpenWindowState
    simp [hmc]
  set Ssnap : List TabItem :=
    ((w.tabItems.map cleanOpenStateT).filter (fun ti => ti.saved)).map
      resetSavedItem with hSsnap
  set Och : List TabItem := cw.tabs.map makeOpenTabItem with hOch
  have hgood : ∀ ti ∈ Ssnap, ti.saved = true ∧ ti.savedState ≠ none := by
    intro ti hti
    obtain ⟨x, hx, hxe⟩ := List.mem_map.mp hti
    obtain ⟨hxm, hxs⟩ := List.mem_filter.mp hx
    obtain ⟨y, hy, hye⟩ := List.mem_map.mp hxm
    subst hxe
    subst hye
    constructor
    · exact hxs
    · show (resetSavedItem (cleanOpenStateT y)).savedState ≠ none
      have : (resetSavedItem (cleanOpenStateT y)).savedState = y.savedState := by
        unfold resetSavedItem
        exact cleanOpenStateT_savedState y
      rw [this]
      apply (hw y hy).2
      rw [← cleanOpenStateT_saved y]
      exact hxs
  have h2 : updateWindow wSnap cw =
      .ok { wSnap with
        tabItems :=
          Och.map (mergeEnrich (Ssnap.map fun ti => (savedUrl ti, ti))) ++
            Ssnap.filter (closedPred Och),
        windowType := cw.type, isOpen := true, openWindowId := cw.id,
        snapshot := false, chromeSessionId := none } := by
    unfold updateWindow mergeOpenTabs
    rw [show wSnap.tabItems = w.tabItems.map cleanOpenStateT from rfl]
    rw [mergeSavedOpenTabs_ok _ hgood]
  refine ⟨wSnap, _, h1, h2, ?_⟩
  set pairs := Ssnap.map fun ti => (savedUrl ti, ti) with hpairs
  have hfilterOpen :
      ((Och.map (mergeEnrich pairs) ++ Ssnap.filter (closedPred Och)).filter
        (fun t => t.isOpen)) = Och.map (mergeEnrich pairs) := by
    rw [List.filter_append]
    rw [List.filter_eq_self.mpr, List.filter_eq_nil_iff.mpr]
    · simp
    · intro a ha
      have ham := List.mem_of_mem_filter ha
      obtain ⟨x, hx, hxe⟩ := List.mem_map.mp ham
      obtain ⟨hxm, hxs⟩ := List.mem_filter.mp hx
      subst hxe
      simp [resetSavedItem]
    · intro a ha
      obtain ⟨x, hx, hxe⟩ := List.mem_map.mp ha
      subst hxe
      rw [mergeEnrich_isOpen]
      obtain ⟨t, ht, hte⟩ := List.mem_map.mp (hOch ▸ hx)
      rw [← hte]
      rfl
  have hmapurl : (Och.map (mergeEnrich pairs)).map TabItem.url =
      cw.tabs.map Tab.url := by
    rw [hOch, List.map_map, List.map_map]
    apply List.map_congr_left
    intro t _
    show ((mergeEnrich pairs (makeOpenTabItem t)).url) = t.url
    rw [mergeEnrich_url_of_open rfl]
    rfl
  have hmapact : (Och.map (mergeEnrich pairs)).map openActive =
      cw.tabs.map Tab.active := by
    rw [hOch, List.map_map, List.map_map]
    apply List.map_congr_left
    intro t _
    show openActive (mergeEnrich pairs (makeOpenTabItem t)) = t.active
    rw [openActive_eq_of_openState (mergeEnrich_openState pairs (makeOpenTabItem t))]
    rfl
  constructor
  · show ((Och.map (mergeEnrich pairs) ++ Ssnap.filter (closedPred Och)).filter
        (fun t => t.isOpen)).map TabItem.url = _
    rw [hfilterOpen, hmapurl, hurl]
  · show ((Och.map (mergeEnrich pairs) ++ Ssnap.filter (closedPred Och)).filter
        (fun t => t.isOpen)).map openActive = _
    rw [hfilterOpen, hmapact, hact]

end Tabli

namespace Tabli

/-- Live tab matching `mergedItemA`'s open side (url `a.com`, active). -/
def tabA : Tab := { url := "a.com", id := 11, index := 0, active := true, title := "A" }

/-- Live tab matching `openOnlyItemB`'s open side (url `b.com`, inactive). -/
def tabB : Tab := { url := "b.com", id := 12, index := 1, active := false, title := "B2" }

/-- A live Chrome window carrying the same tabs as
`exampleTwoTabWindow`'s open items. -/
def exampleChromeWindow : ChromeWindow :=
  { id := 7, type := "normal", width := 200, height := 150, tabs := [tabA, tabB] }

theorem updateWindow_roundtrip_witness :
    exampleTwoTabWindow.isOpen = true ∧
    (∀ ti ∈ exampleTwoTabWindow.tabItems, wfItem ti) ∧
    exampleChromeWindow.tabs.map Tab.url =
      (exampleTwoTabWindow.tabItems.filter (fun t => t.isOpen)).map TabItem.url ∧
    exampleChromeWindow.tabs.map Tab.active =
      (exampleTwoTabWindow.tabItems.filter (fun t => t.isOpen)).map openActive ∧
    (∃ w1 w2, removeOpenWindowState exampleTwoTabWindow true = .ok w1 ∧
      updateWindow w1 exampleChromeWindow = .ok w2 ∧
      (w2.tabItems.filter (fun t => t.isOpen)).map TabItem.url =
        (exampleTwoTabWindow.tabItems.filter (fun t => t.isOpen)).map TabItem.url ∧
      (w2.tabItems.filter (fun t => t.isOpen)).map openActive =
        (exampleTwoTabWindow.tabItems.filter (fun t => t.isOpen)).map openActive) :=
  ⟨rfl, by decide, by decide, by decide,
   updateWindow_roundtrip exampleTwoTabWindow exampleChromeWindow rfl
     (by decide) (by decide) (by decide)⟩

end Tabli

namespace Tabli

/-! ## C5 — a url change on a merged tab splits open and saved state -/

/-- Open state for a second open tab that also shows url `a.com`. -/
def osA2 : OpenTabState :=
  { url := "a.com", openTabId := 2, active := false, openTabIndex := 1, title := "A2" }

/-- A second open-only item for url `a.com` (live tab id 2). -/
def openOnlyItemA2 : TabItem := { isOpen := true, openState := some osA2 }

/-- Window holding the merged `a.com` item and a second open tab with the
same url — the input refuting C5 as stated. -/
def c5CexWindow : TabWindow :=
  { saved := true, savedTitle := "W", savedFolderId := "f1",
    isOpen := true, openWindowId := 5,
    tabItems := [mergedItemA, openOnlyItemA2] }

/-- The window `updateTabItem` actually produces on the C5 counterexample
input: the saved entry re-merges onto the second open `a.com` tab instead of
reappearing as a closed item. -/
def c5CexResultWindow : TabWindow :=
  { c5CexWindow with tabItems :=
      [{ isOpen := true, openState := some { osA with url := "new.com" } },
       { openOnlyItemA2 with saved := true, savedState := some ssA }] }

/-- C5 (counterexample): the claim quantifies over every window containing a
merged item; with a second open tab sharing the old url, updating the merged
tab's url leaves NO closed item in the result — the old saved entry merges
onto the other open tab rather than reappearing as a separate closed,
saved-only item. -/
theorem updateTabItem_url_change_split_counterexample :
    mergedItemA ∈ c5CexWindow.tabItems ∧
    mergedItemA.saved = true ∧ mergedItemA.isOpen = true ∧
    mergedItemA.savedState = some ssA ∧ mergedItemA.openState = some osA ∧
    osA.url = ssA.url ∧ ssA.url ≠ "new.com" ∧
    updateTabItem c5CexWindow 1 { url := some "new.com" } = .ok c5CexResultWindow ∧
    c5CexResultWindow.tabItems.all (fun t => t.isOpen) = true := by
  refine ⟨by decide, rfl, rfl, rfl, rfl, rfl, by decide, rfl, by decide⟩

theorem mergeEnrich_no_match {pairs : List (String × TabItem)} {ti : TabItem}
    {os : OpenTabState} (h : ti.openState = some os)
    (hn : lastLookup pairs os.url = none) : mergeEnrich pairs ti = ti := by
  cases ti with
  | mk s sst o ost =>
    dsimp only at h
    subst h
    unfold mergeEnrich
    dsimp only
    rw [hn]

/-- C5 (amended): on a well-formed window, updating by live-tab id a merged
item (open and saved, `openState.url = savedState.url`) with a changeInfo
whose `url` field is a differing new url (and which does not touch the
open-tab id) splits the item — provided the updated tab is the only open
item carrying the old url and no saved item carries the new url: the tab
remains present as an open item under the new url, with its open-tab id and
without the old saved state attached, and the old saved entry reappears as
a separate closed, saved-only item. -/
theorem updateTabItem_url_change_splits (w : TabWindow) (tabId : Int)
    (ci : ChangeInfo) (i : Nat) (ti : TabItem) (ss : SavedTabState)
    (os : OpenTabState) (newUrl : String)
    (hw : ∀ t ∈ w.tabItems, wfItem t)
    (hfind : w.findChromeTabId tabId = some (i, ti))
    (hsaved : ti.saved = true)
    (hss : ti.savedState = some ss)
    (hos : ti.openState = some os)
    (hmatch : os.url = ss.url)
    (hciurl : ci.url = some newUrl)
    (hciid : ci.openTabId = none)
    (hnewSaved : ∀ t ∈ w.tabItems, t.saved = true →
      ∀ sst, t.savedState = some sst → sst.url ≠ newUrl)
    (hold : ∀ (j : Nat) (hj : j < w.tabItems.length), j ≠ i →
      w.tabItems[j].isOpen = true →
      ∀ osj, w.tabItems[j].openState = some osj → osj.url ≠ os.url) :
    ∃ w', updateTabItem w tabId ci = .ok w' ∧
      (∃ os', ({ saved := false, savedState := none, isOpen := true,
                 openState := some os' } : TabItem) ∈ w'.tabItems ∧
        os'.url = newUrl ∧ os'.openTabId = os.openTabId) ∧
      ({ saved := true, savedState := some ss, isOpen := false,
         openState := none } : TabItem) ∈ w'.tabItems := by
  obtain ⟨hlen, hget, hopen, os0, hos0, hid0⟩ := findChromeTabId_some hfind
  -- identify the tab item as a literal record
  cases ti with
  | mk tis tiss tio tios =>
  dsimp only at hsaved hss hos hopen
  subst hsaved
  subst hss
  subst hos
  subst hopen
  -- facts about the patched open state
  have hurl' : (applyOpenChanges os ci).url = newUrl := by
    simp [applyOpenChanges, hciurl]
  have hid' : (applyOpenChanges os ci).openTabId = os.openTabId := by
    simp [applyOpenChanges, hciid]
  have hkeys : openUpdKeysEmpty ci = false := by
    simp [openUpdKeysEmpty, hciurl]
  have hciS : ci.url.isSome = true := by rw [hciurl]; rfl
  have htiMem : (⟨true, some ss, true, some os⟩ : TabItem) ∈ w.tabItems := by
    obtain ⟨hlt, hgetL⟩ := List.getElem?_eq_some.mp hget
    exact hgetL ▸ List.getElem_mem hlt
  have hssne : ss.url ≠ newUrl := hnewSaved _ htiMem rfl ss rfl
  -- the updated item and the spliced item list
  have hsplice := listSplice_replace_one w.tabItems i
    (⟨true, some ss, true, some (applyOpenChanges os ci)⟩ : TabItem)
    (le_of_lt hlen)
  set tiU : TabItem := ⟨true, some ss, true, some (applyOpenChanges os ci)⟩
    with htiU
  set L' : List TabItem :=
    w.tabItems.take i ++ tiU :: w.tabItems.drop (i + 1) with hL'
  have hres1 : updateTabItem w tabId ci =
      mergeTabWindowTabItems (w.setTabItems L') none none := by
    unfold updateTabItem
    rw [hfind]
    dsimp only
    rw [if_neg (by rw [hkeys]; simp)]
    rw [if_pos hciS]
    rw [hsplice]
  -- membership in the spliced list, indexed form
  have hkey : ∀ x ∈ L', x = tiU ∨
      ∃ (j : Nat) (hj : j < w.tabItems.length), j ≠ i ∧ w.tabItems[j] = x := by
    intro x hx
    rw [hL'] at hx
    rcases List.mem_append.mp hx with hA | hBc
    · right
      obtain ⟨j, hjlen, hjx⟩ := List.mem_iff_getElem.mp hA
      have hjlen' : j < i ∧ j < w.tabItems.length := by
        simp [List.length_take] at hjlen
        omega
      refine ⟨j, hjlen'.2, by omega, ?_⟩
      rw [List.getElem_take] at hjx
      exact hjx
    · rcases List.mem_cons.mp hBc with heq | hB
      · left; exact heq
      · right
        obtain ⟨k, hklen, hkx⟩ := List.mem_iff_getElem.mp hB
        have hklen' : (i + 1) + k < w.tabItems.length := by
          simp [List.length_drop] at hklen
          omega
        refine ⟨(i + 1) + k, hklen', by omega, ?_⟩
        rw [List.getElem_drop] at hkx
        exact hkx
  have htiUmem : tiU ∈ L' := by
    rw [hL']
    exact List.mem_append_right _ (List.mem_cons_self _ _)
  -- the base partitions of the re-merge
  set baseS : List TabItem :=
    (L'.filter (fun t => t.saved)).map resetSavedItem with hbaseS
  set baseO : List TabItem :=
    (L'.filter (fun t => t.isOpen)).map resetOpenItem with hbaseO
  have hgood : ∀ t ∈ baseS, t.saved = true ∧ t.savedState ≠ none := by
    intro t ht
    rw [hbaseS] at ht
    obtain ⟨x, hxf, hxe⟩ := List.mem_map.mp ht
    obtain ⟨hxm, hxsv⟩ := List.mem_filter.mp hxf
    subst hxe
    refine ⟨hxsv, ?_⟩
    show x.savedState ≠ none
    rcases hkey x hxm with heq | ⟨j, hj, _, hxL⟩
    · subst heq; simp [htiU]
    · exact (hw _ (hxL ▸ List.getElem_mem hj)).2 hxsv
  set pairs : List (String × TabItem) :=
    baseS.map (fun t => (savedUrl t, t)) with hpairs
  have hmerge := mergeSavedOpenTabs_ok (S := baseS) baseO hgood
  have hres2 : mergeTabWindowTabItems (w.setTabItems L') none none =
      .ok ((w.setTabItems L').setTabItems
        (baseO.map (mergeEnrich pairs) ++ baseS.filter (closedPred baseO))) := by
    unfold mergeTabWindowTabItems
    dsimp only
    rw [show (w.setTabItems L').tabItems = L' from rfl]
    rw [← hbaseS, ← hbaseO, hmerge, ← hpairs]
  -- no saved pair carries the new url
  have hpairs_ne : ∀ p ∈ pairs, p.1 ≠ newUrl := by
    intro p hp
    rw [hpairs] at hp
    obtain ⟨t, ht, hpe⟩ := List.mem_map.mp hp
    subst hpe
    rw [hbaseS] at ht
    obtain ⟨x, hxf, hxe⟩ := List.mem_map.mp ht
    obtain ⟨hxm, hxsv⟩ := List.mem_filter.mp hxf
    subst hxe
    show savedUrl (resetSavedItem x) ≠ newUrl
    have hsu : savedUrl (resetSavedItem x) = savedUrl x := rfl
    rw [hsu]
    rcases hkey x hxm with heq | ⟨j, hj, _, hxL⟩
    · subst heq
      show ss.url ≠ newUrl
      exact hssne
    · have hxmem : x ∈ w.tabItems := hxL ▸ List.getElem_mem hj
      cases hsst : x.savedState with
      | none => exact absurd hsst ((hw x hxmem).2 hxsv)
      | some sst =>
        have : savedUrl x = sst.url := by simp [savedUrl, hsst]
        rw [this]
        exact hnewSaved x hxmem hxsv sst hsst
  have hlook : lastLookup pairs (applyOpenChanges os ci).url = none := by
    rw [hurl']
    exact lastLookup_eq_none hpairs_ne
  -- the re-opened item under the new url
  set oNew : TabItem := ⟨false, none, true, some (applyOpenChanges os ci)⟩
    with hoNew
  have hoNewBase : oNew ∈ baseO := by
    rw [hbaseO]
    exact List.mem_map_of_mem _ (List.mem_filter.mpr ⟨htiUmem, rfl⟩)
  have hoNewEnrich : mergeEnrich pairs oNew = oNew :=
    mergeEnrich_no_match rfl hlook
  have hoNewMem : oNew ∈ baseO.map (mergeEnrich pairs) ++
      baseS.filter (closedPred baseO) := by
    apply List.mem_append_left
    have := List.mem_map_of_mem (mergeEnrich pairs) hoNewBase
    rw [hoNewEnrich] at this
    exact this
  -- the closed saved-only item carrying the old saved state
  set sOld : TabItem := ⟨true, some ss, false, none⟩ with hsOld
  have hsOldBase : sOld ∈ baseS := by
    rw [hbaseS]
    exact List.mem_map_of_mem _ (List.mem_filter.mpr ⟨htiUmem, rfl⟩)
  have hnotin : ss.url ∉ baseO.map TabItem.url := by
    intro hmem
    obtain ⟨y, hy, hye⟩ := List.mem_map.mp hmem
    rw [hbaseO] at hy
    obtain ⟨x, hxf, hxe⟩ := List.mem_map.mp hy
    obtain ⟨hxm, hxo⟩ := List.mem_filter.mp hxf
    subst hxe
    rcases hkey x hxm with heq | ⟨j, hj, hne, hxL⟩
    · subst heq
      have : TabItem.url (resetOpenItem tiU) = newUrl := by
        rw [htiU]
        show TabItem.url (⟨false, none, true, some (applyOpenChanges os ci)⟩ : TabItem) = newUrl
        rw [url_of_open rfl rfl]
        exact hurl'
      rw [this] at hye
      exact hssne hye.symm
    · have hxmem : x ∈ w.tabItems := hxL ▸ List.getElem_mem hj
      cases hosx : x.openState with
      | none => exact absurd hosx ((hw x hxmem).1 hxo)
      | some osj =>
        have hresetOpen : (resetOpenItem x).isOpen = true := hxo
        have hresetState : (resetOpenItem x).openState = some osj := hosx
        rw [url_of_open hresetOpen hresetState] at hye
        have hx_open : w.tabItems[j].isOpen = true := by rw [hxL]; exact hxo
        have hx_state : w.tabItems[j].openState = some osj := by rw [hxL]; exact hosx
        have := hold j hj hne hx_open osj hx_state
        rw [hmatch] at this
        exact this hye
  have hclosed : closedPred baseO sOld = true := by
    rw [hsOld]
    show closedPred baseO (⟨true, some ss, false, none⟩ : TabItem) = true
    unfold closedPred
    simpa using hnotin
  have hsOldMem : sOld ∈ baseO.map (mergeEnrich pairs) ++
      baseS.filter (closedPred baseO) :=
    List.mem_append_right _ (List.mem_filter.mpr ⟨hsOldBase, hclosed⟩)
  refine ⟨(w.setTabItems L').setTabItems
      (baseO.map (mergeEnrich pairs) ++ baseS.filter (closedPred baseO)),
    hres1.trans hres2, ⟨applyOpenChanges os ci, ?_, hurl', hid'⟩, ?_⟩
  · exact hoNewMem
  · exact hsOldMem

/-- A saved+open window with just the merged `a.com` item — the witness
input for the amended C5. -/
def c5SplitWindow : TabWindow :=
  { saved := true, savedTitle := "W", savedFolderId := "f1",
    isOpen := true, openWindowId := 5, tabItems := [mergedItemA] }

theorem updateTabItem_url_change_splits_witness :
    (∀ t ∈ c5SplitWindow.tabItems, wfItem t) ∧
    c5SplitWindow.findChromeTabId 1 = some (0, mergedItemA) ∧
    mergedItemA.saved = true ∧ mergedItemA.savedState = some ssA ∧
    mergedItemA.openState = some osA ∧ osA.url = ssA.url ∧
    (∃ w', updateTabItem c5SplitWindow 1 { url := some "new.com" } = .ok w' ∧
      (∃ os', ({ saved := false, savedState := none, isOpen := true,
                 openState := some os' } : TabItem) ∈ w'.tabItems ∧
        os'.url = "new.com" ∧ os'.openTabId = osA.openTabId) ∧
      ({ saved := true, savedState := some ssA, isOpen := false,
         openState := none } : TabItem) ∈ w'.tabItems) :=
  ⟨by decide, by decide, rfl, rfl, rfl, rfl,
   updateTabItem_url_change_splits c5SplitWindow 1
     { url := some "new.com" } 0 mergedItemA ssA osA "new.com"
     (by decide) (by decide) rfl rfl rfl rfl rfl rfl
     (by
      intro t ht hsv sst hsst
      have hteq : t = mergedItemA := by simpa [c5SplitWindow] using ht
      subst hteq
      have hsse : sst = ssA := by
        rw [show mergedItemA.savedState = some ssA from rfl] at hsst
        exact (Option.some.inj hsst).symm
      subst hsse
      decide)
     (by
      intro j hj hne
      have : j = 0 := by
        have : c5SplitWindow.tabItems.length = 1 := rfl
        omega
      exact absurd this hne)⟩

end Tabli
